import Mathlib

/-!
Verification of the OAuth token lifecycle and local-callback authentication
flow of the auxia-inc/mcp-servers repository.

Shallow embedding conventions:
- Machine timestamps (JavaScript `Date.now()` milliseconds) are `Nat`.
- A JavaScript value of type `string | null | undefined` is `Option String`;
  the JS `||` fallback treats both absence and the empty string as falsy,
  and is embedded as `jsOrStr` / `jsOrOptStr` below.  The `??` operator only
  falls back on absence, so `x ?? undefined` is just `x : Option α`.
- The credential file on disk is `Option (Option R)`: `none` when the file is
  missing (`fs.existsSync` false), `some none` when present but `JSON.parse`
  throws, `some (some r)` when it parses to the record `r`.
- Filesystem side effects are reified as lists of `FsOp`; each save routine
  is embedded as the exact sequence of fs calls the source performs.
- Node promises are one-shot: `resolve`/`reject` on an already settled
  promise is a no-op.  This is embedded in `settle` below.
-/

/-- Stored token record of gcal-mcp (`StoredToken` in gcal-mcp/src/auth.ts). -/
structure StoredToken where
  access_token : String
  refresh_token : Option String
  scope : String
  token_type : String
  expiry_date : Option Nat
deriving DecidableEq, Repr

/-- Stored session record of auxia-mcp (`StoredSession` in its types module).
The source keeps `expires_at` as an ISO date string and compares it through
`new Date(...)`; we embed the instant it denotes as a millisecond `Nat`. -/
structure StoredSession where
  session_cookie : String
  cookie_name : String
  expires_at : Nat
  email : String
  name : String
deriving DecidableEq, Repr

/-- Subset of the google-auth-library `Credentials` object that the gcal
code reads (fields may be absent or null). -/
structure Credentials where
  access_token : Option String
  refresh_token : Option String
  token_type : Option String
  expiry_date : Option Nat
deriving DecidableEq, Repr

/-- JavaScript `v || d` for `v : string | null | undefined`: the empty
string is falsy, so it also falls back to `d`. -/
def jsOrStr (v : Option String) (d : String) : String :=
  match v with
  | some s => if s = "" then d else s
  | none => d

/-- JavaScript `v || d` where both sides are `string | undefined`. -/
def jsOrOptStr (v d : Option String) : Option String :=
  match v with
  | some s => if s = "" then d else some s
  | none => d

/-- gcal-mcp `loadStoredToken` (auth.ts lines 48-58): returns null when the
file is missing, returns null when reading or parsing throws (caught), and
otherwise returns the parsed record as-is.  Note that no expiry check is
performed here; expiry is only consulted later by `isTokenExpired`. -/
def loadStoredToken (file : Option (Option StoredToken)) : Option StoredToken :=
  match file with
  | none => none
  | some none => none
  | some (some t) => some t

/-- auxia-mcp `loadStoredSession` (part_000 lines 39-55): returns null when
the file is missing or parsing throws, and additionally returns null when
`new Date(session.expires_at) < new Date()`, i.e. the stored expiry instant
is strictly before the current instant. -/
def loadStoredSession (file : Option (Option StoredSession)) (now : Nat) :
    Option StoredSession :=
  match file with
  | none => none
  | some none => none
  | some (some s) => if s.expires_at < now then none else some s

/-- gcal-mcp `isTokenExpired` (auth.ts lines 93-101): missing expiry date is
treated as expired; otherwise expired when the expiry is within five
minutes of now. -/
def isTokenExpired (t : StoredToken) (now : Nat) : Bool :=
  match t.expiry_date with
  | none => true
  | some d => decide (d < now + 5 * 60 * 1000)

/-- Reified filesystem calls issued by the token-save routines. -/
inductive FsOp where
  | mkdirOp (mode : Option Nat)
  | writeFileOp (content : String) (mode : Option Nat)
  | renameOp (src dst : String)
  | chmodOp (mode : Nat)
deriving DecidableEq, Repr

def FsOp.isRename : FsOp → Bool
  | .renameOp _ _ => true
  | _ => false

def FsOp.isChmod : FsOp → Bool
  | .chmodOp _ => true
  | _ => false

/-- Modes passed to the write calls of an fs trace, in order. -/
def writeModes (ops : List FsOp) : List (Option Nat) :=
  ops.filterMap fun op =>
    match op with
    | .writeFileOp _ m => some m
    | _ => none

/-- Modes passed to the mkdir calls of an fs trace, in order. -/
def mkdirModes (ops : List FsOp) : List (Option Nat) :=
  ops.filterMap fun op =>
    match op with
    | .mkdirOp m => some m
    | _ => none

/-- One serialized JSON string field with the 2-space indent that
`JSON.stringify(x, null, 2)` produces (string escaping elided: the token
strings in play contain no characters needing escapes). -/
def jsonStrField (k v : String) : String :=
  "  \"" ++ k ++ "\": \"" ++ v ++ "\""

/-- One serialized JSON number field. -/
def jsonNumField (k : String) (n : Nat) : String :=
  "  \"" ++ k ++ "\": " ++ toString n

/-- `JSON.stringify(token, null, 2)` on a gcal `StoredToken`: fields in
declaration order, optional fields omitted when undefined. -/
def stringifyToken (t : StoredToken) : String :=
  let fields :=
    [jsonStrField "access_token" t.access_token]
    ++ (match t.refresh_token with
        | some r => [jsonStrField "refresh_token" r]
        | none => [])
    ++ [jsonStrField "scope" t.scope, jsonStrField "token_type" t.token_type]
    ++ (match t.expiry_date with
        | some d => [jsonNumField "expiry_date" d]
        | none => [])
  "\x7b\n" ++ String.intercalate ",\n" fields ++ "\n\x7d"

/-- gcal-mcp `saveToken` (auth.ts lines 63-67): `ensureConfigDir` performs
`fs.mkdirSync(CONFIG_DIR, { recursive: true, mode: 0o700 })` only when the
directory does not yet exist, then one `fs.writeFileSync(TOKEN_FILE, json,
{ mode: 0o600 })`.  No rename and no chmod are issued. -/
def saveTokenFsOps (dirExists : Bool) (t : StoredToken) : List FsOp :=
  (if dirExists then [] else [.mkdirOp (some 0o700)])
    ++ [.writeFileOp (stringifyToken t) (some 0o600)]

/-- Serialization of an auxia `StoredSession` (the `expires_at` instant
stands in for the ISO string the source stores). -/
def stringifySession (s : StoredSession) : String :=
  let fields :=
    [jsonStrField "session_cookie" s.session_cookie,
     jsonStrField "cookie_name" s.cookie_name,
     jsonNumField "expires_at" s.expires_at,
     jsonStrField "email" s.email,
     jsonStrField "name" s.name]
  "\x7b\n" ++ String.intercalate ",\n" fields ++ "\n\x7d"

/-- auxia-mcp `saveSession` (part_000 lines 60-63): mkdir 0o700 when the
config directory is absent, then one write with mode 0o600. -/
def saveSessionFsOps (dirExists : Bool) (s : StoredSession) : List FsOp :=
  (if dirExists then [] else [.mkdirOp (some 0o700)])
    ++ [.writeFileOp (stringifySession s) (some 0o600)]

/-- gmail-mcp token save (auth.ts lines 67-74): `fs.mkdirSync(securityDir,
{ recursive: true })` with no mode when the directory is absent, then
`fs.writeFileSync(tokenPath, JSON.stringify(tokens, null, 2))` with no mode
option, so the file is created with the process default permissions. -/
def gmailSaveTokenFsOps (dirExists : Bool) (content : String) : List FsOp :=
  (if dirExists then [] else [.mkdirOp none]) ++ [.writeFileOp content none]

/-- slack-mcp token save (part_006 lines 119-135): same shape as gmail,
mkdir without a mode then a write without a mode. -/
def slackSaveTokenFsOps (dirExists : Bool) (content : String) : List FsOp :=
  (if dirExists then [] else [.mkdirOp none]) ++ [.writeFileOp content none]

/-- gdrive-mcp auth script save (auth.ts line 69): a single write without a
mode option and with no mkdir at all. -/
def gdriveSaveTokenFsOps (content : String) : List FsOp :=
  [.writeFileOp content none]

/-- A crash after `k` bytes of an in-place truncating write
(`fs.writeFileSync` opens with O_TRUNC and then writes) leaves the first
`k` bytes of the new content as the whole file. -/
def crashMidWrite (newContent : String) (k : Nat) : String :=
  ⟨newContent.data.take k⟩

/-- Errors surfaced by the gcal callback server and flow, mirroring the
`new Error(...)` sites in gcal-mcp/src/auth.ts. -/
inductive AuthErr where
  | oauthError (msg : String)
  | noCode
  | exchangeFailed
  | timedOut
  | portInUse
deriving DecidableEq, Repr

/-- Events delivered to the callback HTTP server started by
`startCallbackServer`: an inbound request (with its path and query
parameters, and the outcome of the external `authClient.getToken(code)`
exchange should the handler reach it), or the 120-second timer firing. -/
inductive CbEvent where
  | request (path : String) (code : Option String) (error : Option String)
      (exchangeResult : Option Credentials)
  | timerFire
deriving DecidableEq, Repr

def CbEvent.isRequest : CbEvent → Bool
  | .request _ _ _ _ => true
  | .timerFire => false

instance {e a : Type} [DecidableEq e] [DecidableEq a] : DecidableEq (Except e a) := fun x y =>
  match x, y with
  | .ok u, .ok v =>
    if h : u = v then .isTrue (congrArg Except.ok h)
    else .isFalse (fun hc => h (Except.ok.inj hc))
  | .error u, .error v =>
    if h : u = v then .isTrue (congrArg Except.error h)
    else .isFalse (fun hc => h (Except.error.inj hc))
  | .ok _, .error _ => .isFalse (fun hc => Except.noConfusion hc)
  | .error _, .ok _ => .isFalse (fun hc => Except.noConfusion hc)

/-- State of one `startCallbackServer` promise: `resolution` is the settled
value of the promise (a JS promise settles at most once), `settleCount`
counts none-to-some transitions, `responses` counts HTTP responses written,
`serverClosed` records that `server.close()` has been called. -/
structure CbState where
  resolution : Option (Except AuthErr Credentials)
  settleCount : Nat
  responses : Nat
  serverClosed : Bool
deriving DecidableEq, Repr

def cbInit : CbState := ⟨none, 0, 0, false⟩

/-- JS promise one-shot settlement: `resolve`/`reject` after the promise is
settled is a no-op. -/
def settle (s : CbState) (r : Except AuthErr Credentials) : CbState :=
  match s.resolution with
  | some _ => s
  | none => { s with resolution := some r, settleCount := s.settleCount + 1 }

/-- One step of the gcal `startCallbackServer` handler (auth.ts lines
106-194).  Every request is answered (404 off-path, 400 on error or missing
code, 200 on success, 500 when the exchange throws, caught by the
surrounding try); settling requests also close the server.  The timeout
timer closes the server and rejects with the timeout error. -/
def handleCbEvent (s : CbState) (e : CbEvent) : CbState :=
  match e with
  | .timerFire => settle { s with serverClosed := true } (.error .timedOut)
  | .request path code err exch =>
    if path = "/oauth2callback" then
      match err with
      | some m =>
        settle { s with responses := s.responses + 1, serverClosed := true }
          (.error (.oauthError m))
      | none =>
        match code with
        | none =>
          settle { s with responses := s.responses + 1, serverClosed := true }
            (.error .noCode)
        | some _ =>
          match exch with
          | some tokens =>
            settle { s with responses := s.responses + 1, serverClosed := true }
              (.ok tokens)
          | none =>
            settle { s with responses := s.responses + 1, serverClosed := true }
              (.error .exchangeFailed)
    else { s with responses := s.responses + 1 }

/-- Run the callback server over a sequence of delivered events. -/
def runCallback (evs : List CbEvent) : CbState :=
  evs.foldl handleCbEvent cbInit

/-- Timers armed by each callback listener or standalone auth script, read
off the source: gcal auth.ts line 190 and auxia part_000 line 166 arm a
single 120000 ms timeout; the gmail, gdrive and slack auth scripts arm
none. -/
def timersGcal : List Nat := [120000]

def timersAuxia : List Nat := [120000]

def timersGmail : List Nat := []

def timersGdrive : List Nat := []

def timersSlack : List Nat := []

/-- With no redirect ever arriving, the only events delivered by time `t`
are the armed timers whose delay has elapsed. -/
def noRedirectEvents (timers : List Nat) (t : Nat) : List CbEvent :=
  (timers.filter (fun d => decide (d ≤ t))).map (fun _ => CbEvent.timerFire)

/-- Resolution state of a listener at time `t` when no redirect arrives. -/
def noRedirectResolution (timers : List Nat) (t : Nat) :
    Option (Except AuthErr Credentials) :=
  (runCallback (noRedirectEvents timers t)).resolution

/-- Observable side-effect steps of the login flows, in program order. -/
inductive Act where
  | bindListener (port : Nat)
  | openBrowser
  | awaitCallback
  | refreshAttempt
  | writeCredential (t : StoredToken)
deriving DecidableEq, Repr

def Act.isBind : Act → Bool
  | .bindListener _ => true
  | _ => false

def Act.isOpen : Act → Bool
  | .openBrowser => true
  | _ => false

def Act.isWrite : Act → Bool
  | .writeCredential _ => true
  | _ => false

/-- Does every browser-open step in the trace come strictly after some
listener-bind step?  (`seenBind` records whether a bind has occurred.) -/
def opensAfterBind : List Act → Bool → Bool
  | [], _ => true
  | a :: rest, seenBind =>
    match a with
    | .bindListener _ => opensAfterBind rest true
    | .openBrowser => seenBind && opensAfterBind rest seenBind
    | _ => opensAfterBind rest seenBind

/-- Scopes requested by gcal-mcp; imported from its credentials module,
which is outside the provided sources.  The exact strings are immaterial to
every claim below. -/
def SCOPES : List String := ["https://www.googleapis.com/auth/calendar"]

def CALLBACK_PORT : Nat := 3036

/-- Token record constructed by `performOAuthFlow` from the exchanged
credentials (auth.ts lines 223-229): JS `||` fallbacks for access token and
token type, `|| undefined` for the refresh token, `?? undefined` for the
expiry date. -/
def mkStoredToken (c : Credentials) : StoredToken :=
  { access_token := jsOrStr c.access_token ""
    refresh_token := jsOrOptStr c.refresh_token none
    scope := String.intercalate " " SCOPES
    token_type := jsOrStr c.token_type "Bearer"
    expiry_date := c.expiry_date }

/-- gcal `performOAuthFlow` (auth.ts lines 200-235), parameterized by the
settled outcome `cb` of the callback-server promise (see `runCallback`).
In source order: `startCallbackServer` is invoked (binding the listener
synchronously inside the promise executor), then `open(authUrl)` runs, then
the callback promise is awaited.  A rejected promise propagates out of the
`await` unchanged, skipping `saveToken`; a fulfilled one is converted with
`mkStoredToken` and saved. -/
def performOAuthFlow (file : Option StoredToken)
    (cb : Except AuthErr Credentials) :
    Except AuthErr StoredToken × Option StoredToken × List Act :=
  let pre := [Act.bindListener CALLBACK_PORT, Act.openBrowser,
    Act.awaitCallback]
  match cb with
  | .error e => (.error e, file, pre)
  | .ok c =>
    let t := mkStoredToken c
    (.ok t, some t, pre ++ [Act.writeCredential t])

/-- gmail-mcp `authenticate` (auth.ts lines 52-106) opens the browser
inside the `server.listen` callback, i.e. after the listening event. -/
def gmailAuthenticateActions : List Act :=
  [Act.bindListener 3035, Act.openBrowser]

/-- gdrive auth script (auth.ts lines 93-103): same shape as gmail. -/
def gdriveAuthenticateActions : List Act :=
  [Act.bindListener 3000, Act.openBrowser]

/-- slack auth script (part_006 lines 161-170): same shape as gmail. -/
def slackAuthenticateActions : List Act :=
  [Act.bindListener 3036, Act.openBrowser]

/-- auxia `authenticateWithSession` (part_000 lines 177-218): with a valid
stored session no listener or browser is involved; otherwise
`startCallbackServer()` runs first (binding inside the executor) and the
browser is opened afterwards. -/
def authenticateWithSessionActions (existing : Option StoredSession) :
    List Act :=
  match existing with
  | some _ => []
  | none => [Act.bindListener 8765, Act.openBrowser,
      Act.awaitCallback]

/-- Credentials returned by `authClient.refreshAccessToken()`; the explicit
refresh path of `getAuthenticatedClient` reads only these fields. -/
structure RefreshCreds where
  access_token : Option String
  expiry_date : Option Nat
deriving DecidableEq, Repr

/-- Token merge of the explicit refresh path (auth.ts lines 263-268):
spread of the old token with a new access token (JS `||` fallback) and the
new expiry (`?? undefined`); the stored refresh token is left untouched. -/
def refreshMerge (t : StoredToken) (c : RefreshCreds) : StoredToken :=
  { t with
    access_token := jsOrStr c.access_token t.access_token
    expiry_date := c.expiry_date }

/-- Token merge of the automatic `tokens` event listener (auth.ts lines
297-302): `newTokens.refresh_token || currentToken.refresh_token` keeps the
stored refresh token whenever the event carries none. -/
def tokensListenerMerge (cur : StoredToken) (newT : Credentials) : StoredToken :=
  { cur with
    access_token := jsOrStr newT.access_token cur.access_token
    expiry_date := newT.expiry_date
    refresh_token := jsOrOptStr newT.refresh_token cur.refresh_token }

/-- The `tokens` event listener body (auth.ts lines 293-305): reload the
stored token; when one is present, save the merge; otherwise do nothing. -/
def tokensListener (file : Option (Option StoredToken)) (newT : Credentials) :
    Option StoredToken × List Act :=
  match loadStoredToken file with
  | none => (loadStoredToken file, [])
  | some cur =>
    let u := tokensListenerMerge cur newT
    (some u, [Act.writeCredential u])

/-- Result-side errors of `getAuthenticatedClient`: an error thrown by the
interactive flow propagates unchanged; the distinct not-authenticated error
is thrown when no valid token exists and auto-popup is disabled. -/
inductive GacError where
  | flow (e : AuthErr)
  | notAuthenticated
deriving DecidableEq, Repr

/-- gcal `getAuthenticatedClient` (auth.ts lines 248-308), parameterized by
the load result, the current time, the outcome of the external refresh call
and the settled callback outcome of a potential interactive flow.  Returns
the resulting token paired with `isNewAuth`, the credential file afterwards
and the side-effect trace.  Mirrors the source: a stored token with a
refresh token that is expired triggers a refresh; a successful refresh is
merged and saved; a failed refresh nulls the token; a null token runs the
interactive flow when `autoPopup` and otherwise throws the distinct
not-authenticated error. -/
def getAuthenticatedClient (autoPopup : Bool) (stored : Option StoredToken)
    (now : Nat) (refreshResult : Except Unit RefreshCreds)
    (flowCb : Except AuthErr Credentials) (file : Option StoredToken) :
    Except GacError (StoredToken × Bool) × Option StoredToken × List Act :=
  match stored with
  | some t =>
    if t.refresh_token.isSome && isTokenExpired t now then
      match refreshResult with
      | .ok c =>
        let u := refreshMerge t c
        (.ok (u, false), some u,
          [Act.refreshAttempt, Act.writeCredential u])
      | .error _ =>
        if autoPopup then
          match performOAuthFlow file flowCb with
          | (.error e, f, acts) =>
            (.error (.flow e), f, Act.refreshAttempt :: acts)
          | (.ok u, f, acts) =>
            (.ok (u, true), f, Act.refreshAttempt :: acts)
        else (.error .notAuthenticated, file, [Act.refreshAttempt])
    else (.ok (t, false), file, [])
  | none =>
    if autoPopup then
      match performOAuthFlow file flowCb with
      | (.error e, f, acts) => (.error (.flow e), f, acts)
      | (.ok u, f, acts) => (.ok (u, true), f, acts)
    else (.error .notAuthenticated, file, [])

/-- In-memory state of the lazily initialized client factory
(`CalendarClient` in part_003 / `GoogleDriveClient` in drive-client.ts):
whether the API handle is set, the in-flight init promise (identified by a
fresh id), and how many `doInitialize` attempts have been started. -/
structure Factory where
  initialized : Bool
  initPromise : Option Nat
  attempts : Nat
deriving DecidableEq, Repr

def factoryInit : Factory := ⟨false, none, 0⟩

/-- What one `ensureInitialized` caller does at its synchronous entry. -/
inductive EntryOut where
  | immediate
  | awaits (pid : Nat)
deriving DecidableEq, Repr

/-- Synchronous entry segment of `ensureInitialized` (part_003 lines
131-147, drive-client.ts lines 167-193 with `forceRefresh = false`): return
at once when the handle exists, await the in-flight promise when one
exists, otherwise start `doInitialize` and record its promise.  The whole
segment runs without a suspension point, so under the event loop it is
atomic. -/
def ensureInitializedEntry (s : Factory) : Factory × EntryOut :=
  if s.initialized then (s, .immediate)
  else
    match s.initPromise with
    | some p => (s, .awaits p)
    | none =>
      ({ s with initPromise := some s.attempts, attempts := s.attempts + 1 },
        .awaits s.attempts)

/-- Settlement of the in-flight attempt: `doInitialize` sets the handle on
success, and the `finally` clears the promise either way. -/
def initComplete (s : Factory) (success : Bool) : Factory :=
  { s with initPromise := none, initialized := s.initialized || success }

/-- What a caller ultimately observes: an immediate return is a success
(the cached handle), an awaiting caller observes the settlement of the
single in-flight attempt (all awaited pids resolve with `res` here because
only one attempt exists in the runs considered). -/
def observedOutcome (res : Except Unit Unit) : EntryOut → Except Unit Unit
  | .immediate => .ok ()
  | .awaits _ => res

/-- Two overlapping `ensureInitialized` calls: both entry segments run
(in either order) before the single attempt settles, then the attempt
settles with `res`. -/
def runOverlap (aFirst : Bool) (res : Except Unit Unit) :
    Factory × EntryOut × EntryOut :=
  let p1 := ensureInitializedEntry factoryInit
  let p2 := ensureInitializedEntry p1.1
  let sf := initComplete p2.1
    (match res with | .ok _ => true | .error _ => false)
  if aFirst then (sf, p1.2, p2.2) else (sf, p2.2, p1.2)

/-- Settle-count bookkeeping invariant of the callback machine: the counter
is 1 exactly when the promise is settled. -/
def CbInv (s : CbState) : Prop :=
  s.settleCount = if s.resolution.isSome then 1 else 0

/-- Concrete exchanged credentials used in witnesses. -/
def credsW : Credentials :=
  { access_token := some "tok1", refresh_token := some "ref1",
    token_type := some "Bearer", expiry_date := some 1000 }

/-- A stored token whose expiry instant is one hour before the witness
clock value 7200000. -/
def expiredToken : StoredToken :=
  { access_token := "at1", refresh_token := some "rt1", scope := "sc",
    token_type := "Bearer", expiry_date := some 3600000 }

/-- A stored session whose expiry instant is in the past at 7200000. -/
def sessionW : StoredSession :=
  { session_cookie := "ck", cookie_name := "cn", expires_at := 3600000,
    email := "u@example.com", name := "U" }

/-- Stored token for the refresh-fallback witness. -/
def tokenW : StoredToken :=
  { access_token := "at2", refresh_token := some "rt2", scope := "sc",
    token_type := "Bearer", expiry_date := some 1000 }

/-- Previously stored record for the torn-write counterexample. -/
def tokenPrev : StoredToken :=
  { access_token := "olda", refresh_token := some "oldr", scope := "s1",
    token_type := "Bearer", expiry_date := some 111 }

/-- Record being saved when the crash is simulated. -/
def tokenNew : StoredToken :=
  { access_token := "newa", refresh_token := some "newr", scope := "s2",
    token_type := "Bearer", expiry_date := some 222 }

/-- Callback event sequence of the double-click witness: the user hits the
callback path twice with a valid code, and the 120-second timer fires
afterwards as well. -/
def doubleClickEvents : List CbEvent :=
  [CbEvent.request "/oauth2callback" (some "abc123") none (some credsW),
   CbEvent.request "/oauth2callback" (some "abc123") none (some credsW),
   CbEvent.timerFire]

/-- Extra events delivered after the run of `doubleClickEvents`. -/
def lateEvents : List CbEvent :=
  [CbEvent.request "/oauth2callback" (some "zzz") none none,
   CbEvent.request "/other" none none none]

theorem settle_resolution_some {s : CbState} {x : Except AuthErr Credentials}
    (h : s.resolution = some x) (r : Except AuthErr Credentials) :
    settle s r = s := by
  simp [settle, h]

theorem settle_responses (s : CbState) (r : Except AuthErr Credentials) :
    (settle s r).responses = s.responses := by
  unfold settle
  cases s.resolution <;> rfl

theorem handleCbEvent_preserves {s : CbState} {x : Except AuthErr Credentials}
    (e : CbEvent) (h : s.resolution = some x) :
    (handleCbEvent s e).resolution = some x := by
  cases e with
  | timerFire => simp [handleCbEvent, settle, h]
  | request p c er ex =>
    unfold handleCbEvent
    by_cases hp : p = "/oauth2callback" <;>
      simp only [hp, if_true, if_false, ite_true, ite_false, reduceIte] <;>
      [skip; exact h]
    cases er <;> cases c <;> cases ex <;> simp [settle, h]

theorem foldl_handle_preserves (evs : List CbEvent) :
    ∀ (s : CbState) (x : Except AuthErr Credentials), s.resolution = some x →
      (evs.foldl handleCbEvent s).resolution = some x := by
  induction evs with
  | nil => intro s x h; exact h
  | cons e rest ih =>
    intro s x h
    exact ih (handleCbEvent s e) x (handleCbEvent_preserves e h)

theorem settle_inv {s : CbState} (h : CbInv s) (r : Except AuthErr Credentials) :
    CbInv (settle s r) := by
  unfold CbInv settle at *
  cases hres : s.resolution <;> simp [hres] at h ⊢ <;> simp [h]

theorem handleCbEvent_inv {s : CbState} (e : CbEvent) (h : CbInv s) :
    CbInv (handleCbEvent s e) := by
  cases e with
  | timerFire =>
    exact settle_inv (by simpa [CbInv] using h) _
  | request p c er ex =>
    unfold handleCbEvent
    by_cases hp : p = "/oauth2callback" <;>
      simp only [hp, if_true, if_false, ite_true, ite_false, reduceIte]
    · cases er <;> cases c <;> cases ex <;>
        exact settle_inv (by simpa [CbInv] using h) _
    · simpa [CbInv] using h

theorem foldl_handle_inv (evs : List CbEvent) :
    ∀ s : CbState, CbInv s → CbInv (evs.foldl handleCbEvent s) := by
  induction evs with
  | nil => intro s h; exact h
  | cons e rest ih => intro s h; exact ih _ (handleCbEvent_inv e h)

theorem handleCbEvent_responses (s : CbState) (e : CbEvent) :
    (handleCbEvent s e).responses
      = s.responses + (if e.isRequest then 1 else 0) := by
  cases e with
  | timerFire =>
    simp [handleCbEvent, CbEvent.isRequest, settle_responses]
  | request p c er ex =>
    unfold handleCbEvent
    by_cases hp : p = "/oauth2callback" <;>
      simp only [hp, if_true, if_false, ite_true, ite_false, reduceIte]
    · cases er <;> cases c <;> cases ex <;>
        simp [settle_responses, CbEvent.isRequest]
    · simp [CbEvent.isRequest]

theorem foldl_handle_responses (evs : List CbEvent) :
    ∀ s : CbState,
      (evs.foldl handleCbEvent s).responses
        = s.responses + evs.countP CbEvent.isRequest := by
  induction evs with
  | nil => intro s; simp
  | cons e rest ih =>
    intro s
    rw [List.foldl_cons, ih, handleCbEvent_responses, List.countP_cons]
    rcases e <;> (simp [CbEvent.isRequest]; try omega)

/-- C1: in every interactive login flow (gcal performOAuthFlow, the
gmail/gdrive/slack authenticate scripts, auxia authenticateWithSession),
the local callback listener is bound before the provider consent URL is
opened in the browser: every browser-open step of the flow trace is
strictly preceded by a listener-bind step. -/
theorem listener_bound_before_browser_open :
    (∀ (file : Option StoredToken) (cb : Except AuthErr Credentials),
      opensAfterBind (performOAuthFlow file cb).2.2 false = true)
    ∧ opensAfterBind gmailAuthenticateActions false = true
    ∧ opensAfterBind gdriveAuthenticateActions false = true
    ∧ opensAfterBind slackAuthenticateActions false = true
    ∧ (∀ existing : Option StoredSession,
      opensAfterBind (authenticateWithSessionActions existing) false = true) := by
  refine ⟨fun file cb => ?_, rfl, rfl, rfl, fun existing => ?_⟩
  · cases cb <;> rfl
  · cases existing <;> rfl

/-- C2: two overlapping `ensureInitialized` calls issued while the factory
is unauthenticated start exactly one `doInitialize` attempt, whichever
caller enters first; both callers await the same in-flight promise and so
observe the same single outcome; and the one attempt that runs while
unauthenticated performs exactly one listener bind and one browser open. -/
theorem ensureInitialized_dedup_single_attempt :
    ∀ (aFirst : Bool) (res : Except Unit Unit) (now : Nat)
      (refreshResult : Except Unit RefreshCreds)
      (flowCb : Except AuthErr Credentials) (file : Option StoredToken),
      ((runOverlap aFirst res).1.attempts = 1
        ∧ (runOverlap aFirst res).2.1 = .awaits 0
        ∧ (runOverlap aFirst res).2.2 = .awaits 0
        ∧ observedOutcome res (runOverlap aFirst res).2.1
            = observedOutcome res (runOverlap aFirst res).2.2)
      ∧ (getAuthenticatedClient true none now refreshResult flowCb
            file).2.2.countP Act.isBind = 1
      ∧ (getAuthenticatedClient true none now refreshResult flowCb
            file).2.2.countP Act.isOpen = 1 := by
  intro aFirst res now refreshResult flowCb file
  refine ⟨?_, ?_, ?_⟩
  · cases aFirst <;> cases res <;>
      simp [runOverlap, ensureInitializedEntry, initComplete, factoryInit,
        observedOutcome]
  · cases flowCb <;> rfl
  · cases flowCb <;> rfl

/-- C3: the promise returned by the gcal `startCallbackServer` settles at
most once over any sequence of delivered requests and timer events; once it
is settled its value never changes, however many further requests (for
example a double-click on the consent link) or timer firings arrive; and
every request receives exactly one HTTP response. -/
theorem callback_promise_single_resolution :
    ∀ (evs evs2 : List CbEvent) (r : Except AuthErr Credentials),
      ((runCallback evs).resolution = some r →
        (runCallback (evs ++ evs2)).resolution = some r)
      ∧ (runCallback evs).settleCount ≤ 1
      ∧ (runCallback evs).responses = evs.countP CbEvent.isRequest := by
  intro evs evs2 r
  refine ⟨fun h => ?_, ?_, ?_⟩
  · rw [runCallback, List.foldl_append]
    exact foldl_handle_preserves evs2 _ r h
  · have hinv := foldl_handle_inv evs cbInit (by simp [CbInv, cbInit])
    unfold CbInv at hinv
    rw [runCallback, hinv]
    split <;> omega
  · have := foldl_handle_responses evs cbInit
    simpa [runCallback, cbInit] using this

/-- C3 witness: a concrete double-click run (two callback requests with a
valid code, then the timer): the promise is settled with the first
exchanged credentials, stays settled at that value across the late
requests, and the settle count is one. -/
theorem callback_promise_single_resolution_witness :
    (runCallback doubleClickEvents).resolution = some (.ok credsW)
    ∧ (runCallback (doubleClickEvents ++ lateEvents)).resolution
        = some (.ok credsW)
    ∧ (runCallback (doubleClickEvents ++ lateEvents)).settleCount ≤ 1
    ∧ (runCallback doubleClickEvents).responses
        = doubleClickEvents.countP CbEvent.isRequest :=
  ⟨by decide,
   (callback_promise_single_resolution doubleClickEvents lateEvents
      (.ok credsW)).1 (by decide),
   (callback_promise_single_resolution (doubleClickEvents ++ lateEvents) []
      (.ok credsW)).2.1,
   (callback_promise_single_resolution doubleClickEvents []
      (.ok credsW)).2.2⟩

/-- C4: a failing interactive login (provider error, missing code, failed
exchange or timeout, i.e. any rejected callback outcome) performs no write
to the credential file — the file value is returned unchanged — and the
original error is propagated unmodified out of `performOAuthFlow`, and from
there out of `getAuthenticatedClient`. -/
theorem failed_login_no_write_error_propagates :
    ∀ (file : Option StoredToken) (e : AuthErr) (now : Nat)
      (refreshResult : Except Unit RefreshCreds),
      performOAuthFlow file (.error e)
        = (.error e, file,
            [Act.bindListener CALLBACK_PORT, Act.openBrowser,
              Act.awaitCallback])
      ∧ (performOAuthFlow file (.error e)).2.2.countP Act.isWrite = 0
      ∧ getAuthenticatedClient true none now refreshResult (.error e) file
          = (.error (.flow e), file,
              [Act.bindListener CALLBACK_PORT, Act.openBrowser,
                Act.awaitCallback])
      ∧ (getAuthenticatedClient true none now refreshResult (.error e)
            file).2.2.countP Act.isWrite = 0 := by
  intro file e now refreshResult
  exact ⟨rfl, rfl, rfl, rfl⟩

/-- C5 counterexample: gcal `loadStoredToken` performs no expiry check, so
a record whose expiry instant (3600000) is one hour before the current
instant (7200000) is still returned to the caller, contradicting the claim
that load returns null for expired records in every server. -/
theorem loadStoredToken_returns_expired_record :
    loadStoredToken (some (some expiredToken)) = some expiredToken
    ∧ isTokenExpired expiredToken 7200000 = true
    ∧ ¬ loadStoredToken (some (some expiredToken)) = none := by
  decide

/-- C5 amended: both loaders return null, never throwing, on a missing file
and on unparseable content; auxia `loadStoredSession` additionally returns
null when the stored expiry instant is before now; gcal `loadStoredToken`
performs no expiry check at load and returns any parsed record as-is
(expiry is enforced later via `isTokenExpired`). -/
theorem load_soft_failure_amended :
    ∀ (now : Nat) (s : StoredSession) (t : StoredToken),
      loadStoredToken none = none
      ∧ loadStoredToken (some none) = none
      ∧ loadStoredSession none now = none
      ∧ loadStoredSession (some none) now = none
      ∧ (s.expires_at < now → loadStoredSession (some (some s)) now = none)
      ∧ loadStoredToken (some (some t)) = some t := by
  intro now s t
  refine ⟨rfl, rfl, rfl, rfl, fun h => ?_, rfl⟩
  simp [loadStoredSession, h]

/-- C5 amended witness: the expired-session case at concrete inputs. -/
theorem load_soft_failure_amended_witness :
    sessionW.expires_at < 7200000
    ∧ loadStoredSession (some (some sessionW)) 7200000 = none :=
  ⟨by decide,
   (load_soft_failure_amended 7200000 sessionW expiredToken).2.2.2.2.1
     (by decide)⟩

/-- C6 counterexample: the gmail post-exchange token write passes no mode
to `fs.writeFileSync` (and no mode to `fs.mkdirSync`), so the credential
file is created with the process default permissions, not 0600 — the claim
fails for the gmail (and slack/gdrive) save paths. -/
theorem gmail_token_write_not_restrictive :
    writeModes (gmailSaveTokenFsOps false "tok") = [none]
    ∧ ¬ writeModes (gmailSaveTokenFsOps false "tok") = [some 0o600]
    ∧ mkdirModes (gmailSaveTokenFsOps false "tok") = [none]
    ∧ writeModes (slackSaveTokenFsOps false "tok") = [none]
    ∧ writeModes (gdriveSaveTokenFsOps "tok") = [none] := by
  decide

/-- C6 amended: gcal `saveToken` and auxia `saveSession` create the
credential file with mode 0600 in the write call itself, create a missing
config directory with mode 0700, and never chmod afterwards; the
gmail/slack/gdrive auth-script writes pass no mode at all and so use the
process default permissions. -/
theorem save_permissions_amended :
    ∀ (d : Bool) (t : StoredToken) (s : StoredSession) (c : String),
      writeModes (saveTokenFsOps d t) = [some 0o600]
      ∧ mkdirModes (saveTokenFsOps d t) = (if d then [] else [some 0o700])
      ∧ (saveTokenFsOps d t).any FsOp.isChmod = false
      ∧ writeModes (saveSessionFsOps d s) = [some 0o600]
      ∧ mkdirModes (saveSessionFsOps d s) = (if d then [] else [some 0o700])
      ∧ (saveSessionFsOps d s).any FsOp.isChmod = false
      ∧ writeModes (gmailSaveTokenFsOps d c) = [none]
      ∧ writeModes (slackSaveTokenFsOps d c) = [none]
      ∧ writeModes (gdriveSaveTokenFsOps c) = [none] := by
  intro d t s c
  cases d <;>
    simp [saveTokenFsOps, saveSessionFsOps, gmailSaveTokenFsOps,
      slackSaveTokenFsOps, gdriveSaveTokenFsOps, writeModes, mkdirModes,
      FsOp.isChmod]

/-- C7 counterexample: the gmail auth script arms no timeout timer, so
with no redirect arriving its listener has not settled at the 120-second
bound (nor at any later instant), contradicting the claim that every
server settles as a timeout failure at exactly 120 seconds. -/
theorem gmail_listener_never_times_out :
    noRedirectResolution timersGmail 120000 = none
    ∧ noRedirectResolution timersGmail 100000000 = none
    ∧ noRedirectResolution timersGcal 120000 = some (.error .timedOut) := by
  decide

/-- C7 amended: with no redirect ever arriving, the gcal and auxia callback
listeners settle as a timeout failure exactly when 120000 ms have elapsed
(not before), while the gmail, gdrive and slack auth scripts arm no timer
and never settle. -/
theorem timeout_policy_amended :
    ∀ t : Nat,
      noRedirectResolution timersGcal t
        = (if 120000 ≤ t then some (.error .timedOut) else none)
      ∧ noRedirectResolution timersAuxia t
        = (if 120000 ≤ t then some (.error .timedOut) else none)
      ∧ noRedirectResolution timersGmail t = none
      ∧ noRedirectResolution timersGdrive t = none
      ∧ noRedirectResolution timersSlack t = none := by
  intro t
  by_cases h : 120000 ≤ t <;>
    simp [noRedirectResolution, noRedirectEvents, timersGcal, timersAuxia,
      timersGmail, timersGdrive, timersSlack, runCallback, handleCbEvent,
      settle, cbInit, h]

/-- C8: with a stored token that has a refresh token and is expired (or
expiring inside the 5-minute window), a failing refresh makes
`getAuthenticatedClient` fall through to the full interactive flow when
autoPopup is true (the result, file and trace are those of
`performOAuthFlow`, after the refresh attempt), and throw the distinct
not-authenticated error without opening any browser when autoPopup is
false. -/
theorem refresh_failure_fallback :
    ∀ (t : StoredToken) (r : String) (now : Nat)
      (flowCb : Except AuthErr Credentials) (file : Option StoredToken),
      t.refresh_token = some r → isTokenExpired t now = true →
      (getAuthenticatedClient true (some t) now (.error ()) flowCb file
          = (match performOAuthFlow file flowCb with
             | (.error e, f, acts) =>
               (.error (.flow e), f, Act.refreshAttempt :: acts)
             | (.ok u, f, acts) =>
               (.ok (u, true), f, Act.refreshAttempt :: acts)))
      ∧ getAuthenticatedClient false (some t) now (.error ()) flowCb file
          = (.error .notAuthenticated, file, [Act.refreshAttempt])
      ∧ (getAuthenticatedClient false (some t) now (.error ()) flowCb
            file).2.2.countP Act.isOpen = 0 := by
  intro t r now flowCb file h1 h2
  have hcond : (t.refresh_token.isSome && isTokenExpired t now) = true := by
    simp [h1, h2]
  refine ⟨?_, ?_, ?_⟩ <;> simp [getAuthenticatedClient, hcond, Act.isOpen]

/-- C8 witness: concrete expired token with a refresh token, failing
refresh, autoPopup disabled: the distinct not-authenticated error with no
browser-open step. -/
theorem refresh_failure_fallback_witness :
    tokenW.refresh_token = some "rt2"
    ∧ isTokenExpired tokenW 7200000 = true
    ∧ getAuthenticatedClient false (some tokenW) 7200000 (.error ())
        (.error .noCode) none
        = (.error .notAuthenticated, none, [Act.refreshAttempt]) :=
  ⟨by decide, by decide,
   (refresh_failure_fallback tokenW "rt2" 7200000 (.error .noCode) none
      (by decide) (by decide)).2.1⟩

/-- C9 counterexample: gcal `saveToken` issues no rename (it is a single
in-place truncating write), and simulating a crash 10 bytes into the write
of a new record leaves file content that is neither the previous record
serialization, nor the new one, nor empty — a partially-written file is
observable, so the save is not atomic. -/
theorem save_not_atomic_torn_write :
    (saveTokenFsOps true tokenNew).any FsOp.isRename = false
    ∧ ¬ crashMidWrite (stringifyToken tokenNew) 10 = stringifyToken tokenPrev
    ∧ ¬ crashMidWrite (stringifyToken tokenNew) 10 = stringifyToken tokenNew
    ∧ ¬ crashMidWrite (stringifyToken tokenNew) 10 = "" := by
  decide

/-- C9 amended: token and session saves are a single direct truncating
write of the credential file with no temp file and no rename, so a crash
mid-write leaves some prefix of the new serialized content (possibly torn,
with the previous record already destroyed); a file whose content fails to
parse is mapped to null by load, so a parsed-but-corrupt record is never
returned. -/
theorem save_direct_write_amended :
    ∀ (d : Bool) (t : StoredToken) (s : StoredSession) (k : Nat),
      (saveTokenFsOps d t).any FsOp.isRename = false
      ∧ (saveSessionFsOps d s).any FsOp.isRename = false
      ∧ writeModes (saveTokenFsOps d t) = [some 0o600]
      ∧ (∃ rest, (stringifyToken t).data
            = (crashMidWrite (stringifyToken t) k).data ++ rest)
      ∧ loadStoredToken (some none) = none := by
  intro d t s k
  refine ⟨?_, ?_, ?_, ⟨(stringifyToken t).data.drop k, ?_⟩, rfl⟩
  · cases d <;> simp [saveTokenFsOps, FsOp.isRename]
  · cases d <;> simp [saveSessionFsOps, FsOp.isRename]
  · cases d <;> simp [saveTokenFsOps, writeModes]
  · simp [crashMidWrite]

/-- C10: neither refresh path discards a stored refresh token: the explicit
refresh merge copies the stored token and never touches its refresh token,
and the automatic tokens-event merge keeps the stored refresh token
whenever the event carries none; in both cases the merged record is the one
persisted (the explicit path saves it inside `getAuthenticatedClient`, the
listener saves it via `tokensListener`). -/
theorem refresh_preserves_refresh_token :
    ∀ (t : StoredToken) (c : RefreshCreds) (cur : StoredToken) (r : String)
      (newT : Credentials) (now : Nat) (flowCb : Except AuthErr Credentials)
      (file : Option StoredToken),
      (refreshMerge t c).refresh_token = t.refresh_token
      ∧ (cur.refresh_token = some r → newT.refresh_token = none →
          (tokensListenerMerge cur newT).refresh_token = some r
          ∧ tokensListener (some (some cur)) newT
              = (some (tokensListenerMerge cur newT),
                 [Act.writeCredential (tokensListenerMerge cur newT)]))
      ∧ (t.refresh_token = some r → isTokenExpired t now = true →
          (getAuthenticatedClient true (some t) now (.ok c) flowCb
              file).2.1 = some (refreshMerge t c)
          ∧ (refreshMerge t c).refresh_token = some r) := by
  intro t c cur r newT now flowCb file
  refine ⟨rfl, fun h1 h2 => ⟨?_, rfl⟩, fun h1 h2 => ⟨?_, ?_⟩⟩
  · simp [tokensListenerMerge, jsOrOptStr, h1, h2]
  · have hcond : (t.refresh_token.isSome && isTokenExpired t now) = true := by
      simp [h1, h2]
    simp [getAuthenticatedClient, hcond]
  · simp [refreshMerge, h1]

/-- C10 witness: a concrete stored token with refresh token "rt2" and a
tokens event carrying no refresh token: the merged and persisted record
keeps "rt2". -/
theorem refresh_preserves_refresh_token_witness :
    tokenW.refresh_token = some "rt2"
    ∧ (tokensListenerMerge tokenW
        { access_token := some "newtok", refresh_token := none,
          token_type := some "Bearer",
          expiry_date := some 9999 }).refresh_token = some "rt2" :=
  ⟨by decide,
   ((refresh_preserves_refresh_token tokenW ⟨some "x", some 1⟩ tokenW "rt2"
      { access_token := some "newtok", refresh_token := none,
        token_type := some "Bearer", expiry_date := some 9999 }
      0 (.error .noCode) none).2.1 (by decide) rfl).1⟩
